import Mathlib

/-!
Shallow embedding of `src/fetch_paper_info.py` (the read-paper-now repository):
a paper-information fetcher that classifies a paper URL, resolves it through
one of several sources, enriches a missing citation count through a fallback
chain, and renders a single formatted citation line.

The embedding models the pure decision logic of the script:
`parse_url` (URL classification), `format_authors` / `format_output`
(citation-line rendering), `get_test_paper_info` (the offline test records),
and the citation-enrichment chains of `main` (one per resolution path), with
each network-backed citation source represented by the value it returns
(`Citations.na` standing for both a failed call and an "N/A" answer, exactly
as the Python helpers collapse errors to the string 'N/A').
-/

/-- The `citations` field of a record: a concrete integer count, or the
"N/A" sentinel string used by the Python code for an unknown count. -/
inductive Citations where
  | num (n : Int)
  | na
  deriving DecidableEq, Repr

/-- How the `citations` value appears inside the Python f-string in
`format_output`: an integer prints in decimal, the sentinel prints "N/A". -/
def Citations.render : Citations → String
  | .num n => toString n
  | .na => "N/A"

/-- The paper-information record built by every adapter in
`fetch_paper_info.py`: a dict with keys title / authors / year / venue /
citations, always all present. -/
structure PaperInfo where
  title : String
  authors : List String
  year : String
  venue : String
  citations : Citations
  deriving DecidableEq, Repr

/-- Helper for `splitWs`: accumulates the current token (reversed). -/
def splitWsAux : List Char → List Char → List String
  | [], acc => if acc = [] then [] else [acc.reverse.asString]
  | c :: cs, acc =>
    if c.isWhitespace then
      (if acc = [] then splitWsAux cs [] else acc.reverse.asString :: splitWsAux cs [])
    else splitWsAux cs (c :: acc)

/-- Python `str.split()` with no argument: split on runs of whitespace,
producing no empty tokens. Used by `format_authors` (`author.split()`). -/
def splitWs (s : String) : List String := splitWsAux s.toList []

/-- Python `s.rstrip('.')`: remove every trailing '.' character. -/
def rstripDots (s : String) : String :=
  ((s.toList.reverse.dropWhile (fun c => c = '.')).reverse).asString

/-- The per-author display name built inside `format_authors`
(lines 458-467 and 481-485 of `fetch_paper_info.py`, both branches build the
same string): split the full name on whitespace; with at least two tokens the
last token is the surname and the initials of the remaining tokens are joined
with ". " and closed by "."; a single-token name is returned verbatim. -/
def formatAuthorName (author : String) : String :=
  let parts := splitWs author
  if parts.length > 1 then
    let lastName := parts.getLastD ""
    let initials := String.intercalate ". " (parts.dropLast.map (fun p => p.take 1))
    lastName ++ ", " ++ initials ++ "."
  else author

/-- `format_authors(authors, max_authors)` (lines 450-487): "Unknown Authors"
for an empty list; for at most `max_authors` authors, the formatted names
joined with " and " (two authors) or an Oxford-comma list (three or more),
with trailing periods stripped (`rstrip('.')`); for more authors than
`max_authors`, the first author's formatted name followed by " et al". -/
def format_authors (authors : List String) (max_authors : Int := 3) : String :=
  if authors = [] then "Unknown Authors"
  else if (authors.length : Int) ≤ max_authors then
    let formatted := authors.map formatAuthorName
    let result :=
      if formatted.length = 1 then formatted.headD ""
      else if formatted.length = 2 then
        formatted.headD "" ++ " and " ++ formatted.getD 1 ""
      else
        String.intercalate ", " formatted.dropLast ++ ", and " ++ formatted.getLastD ""
    rstripDots result
  else
    formatAuthorName (authors.headD "") ++ " et al"

/-- `format_output(paper_info, max_authors)` (lines 490-502): the error line
for a missing record, otherwise the template
`**{title}** {authors}. {year}. {venue}. Citations: {citations}`. -/
def format_output (paper_info : Option PaperInfo) (max_authors : Int := 3) : String :=
  match paper_info with
  | none => "Error: Could not fetch paper information"
  | some info =>
    "**" ++ info.title ++ "** " ++ format_authors info.authors max_authors ++ ". "
      ++ info.year ++ ". " ++ info.venue ++ ". Citations: " ++ info.citations.render

/-- `get_test_paper_info(test_id)` (lines 505-530): the three built-in
offline test records, keyed by the strings "1", "2", "3". -/
def get_test_paper_info (test_id : String) : Option PaperInfo :=
  if test_id = "1" then
    some { title := "Attention Is All You Need"
         , authors := ["Ashish Vaswani", "Noam Shazeer", "Niki Parmar", "Jakob Uszkoreit",
                       "Llion Jones", "Aidan N. Gomez", "Lukasz Kaiser", "Illia Polosukhin"]
         , year := "2017", venue := "NeurIPS", citations := .num 98234 }
  else if test_id = "2" then
    some { title := "BERT: Pre-training of Deep Bidirectional Transformers for Language Understanding"
         , authors := ["Jacob Devlin", "Ming-Wei Chang", "Kenton Lee", "Kristina Toutanova"]
         , year := "2019", venue := "NAACL", citations := .num 67890 }
  else if test_id = "3" then
    some { title := "Learning Transferable Visual Models From Natural Language Supervision"
         , authors := ["Alec Radford", "Jong Wook Kim", "Chris Hallacy", "Aditya Ramesh",
                       "Gabriel Goh", "Sandhini Agarwal", "Girish Sastry", "Amanda Askell"]
         , year := "2021", venue := "ICML", citations := .num 15678 }
  else none

/-- Character class `[a-f0-9]` of the semantic-scholar pattern. -/
def isHexLower (c : Char) : Bool := c.isDigit || ('a' ≤ c && c ≤ 'f')

/-- Character class `[A-Za-z0-9_\-]` of the openreview pattern. -/
def isOrIdChar (c : Char) : Bool := c.isAlphanum || c = '_' || c = '-'

/-- Python regex `\s` restricted to its ASCII members (the whitespace that can
occur in a URL string). -/
def isPySpace (c : Char) : Bool :=
  c = ' ' || c = '\t' || c = '\n' || c = '\x0b' || c = '\x0c' || c = '\r'

/-- Does `\d+\.\d+` match a prefix of the character list?  Since `\d+` is
greedy and a shorter digit run would still be followed by a digit, this holds
exactly when a nonempty digit run is followed by '.' and another digit. -/
def digitsDotDigitsAt (cs : List Char) : Bool :=
  !(cs.takeWhile Char.isDigit).isEmpty &&
    (match cs.dropWhile Char.isDigit with
     | '.' :: d :: _ => d.isDigit
     | _ => false)

/-- Does the arXiv pattern `arxiv\.org/(?:abs|pdf)/(\d+\.\d+)` match at the
head of the character list? -/
def arxivAt (cs : List Char) : Bool :=
  ("arxiv.org/abs/".toList.isPrefixOf cs && digitsDotDigitsAt (cs.drop 14)) ||
  ("arxiv.org/pdf/".toList.isPrefixOf cs && digitsDotDigitsAt (cs.drop 14))

/-- After `(?:[^/]+/)`: the non-'/' run must reach a '/' whose successor is a
`[a-f0-9]` character (the one candidate split, since `[^/]+` cannot cross '/'). -/
def ssSlashScan : List Char → Bool
  | [] => false
  | '/' :: rest =>
    match rest with
    | d :: _ => isHexLower d
    | [] => false
  | _ :: rest => ssSlashScan rest

/-- Does `(?:[^/]+/)?([a-f0-9]+)` match a prefix of the character list?
Either the optional group is skipped and the first character is `[a-f0-9]`,
or at least one non-'/' character precedes the first '/', which is followed
by a `[a-f0-9]` character. -/
def ssTailAt (cs : List Char) : Bool :=
  (match cs with
   | c :: _ => isHexLower c
   | [] => false) ||
  (match cs with
   | c :: rest => c ≠ '/' && ssSlashScan rest
   | [] => false)

/-- Does the pattern `semanticscholar\.org/paper/(?:[^/]+/)?([a-f0-9]+)`
match at the head of the character list? -/
def semanticScholarAt (cs : List Char) : Bool :=
  "semanticscholar.org/paper/".toList.isPrefixOf cs && ssTailAt (cs.drop 26)

/-- Does the pattern `openreview\.net/(?:forum|pdf)\?id=([A-Za-z0-9_\-]+)`
match at the head of the character list? -/
def openReviewAt (cs : List Char) : Bool :=
  ("openreview.net/forum?id=".toList.isPrefixOf cs &&
    (match cs.drop 24 with
     | c :: _ => isOrIdChar c
     | [] => false)) ||
  ("openreview.net/pdf?id=".toList.isPrefixOf cs &&
    (match cs.drop 22 with
     | c :: _ => isOrIdChar c
     | [] => false))

/-- Does the DOI pattern `doi\.org/(10\.\d+/[^\s]+)` match at the head of the
character list?  After the literal `doi.org/10.` a nonempty greedy digit run
must be followed by '/' and one non-whitespace character. -/
def doiAt (cs : List Char) : Bool :=
  "doi.org/10.".toList.isPrefixOf cs &&
    (let rest := cs.drop 11
     !(rest.takeWhile Char.isDigit).isEmpty &&
       (match rest.dropWhile Char.isDigit with
        | '/' :: d :: _ => !isPySpace d
        | _ => false))

/-- `re.search` semantics: the anchored matcher succeeds at some position of
the subject string. -/
def searchAny (p : List Char → Bool) : List Char → Bool
  | [] => p []
  | c :: cs => p (c :: cs) || searchAny p cs

/-- `re.search(r'arxiv\.org/(?:abs|pdf)/(\d+\.\d+)', url)` succeeds. -/
def matchesArxiv (url : String) : Bool := searchAny arxivAt url.toList

/-- `re.search(r'semanticscholar\.org/paper/(?:[^/]+/)?([a-f0-9]+)', url)`
succeeds. -/
def matchesSemanticScholar (url : String) : Bool :=
  searchAny semanticScholarAt url.toList

/-- `re.search(r'openreview\.net/(?:forum|pdf)\?id=([A-Za-z0-9_\-]+)', url)`
succeeds. -/
def matchesOpenReview (url : String) : Bool := searchAny openReviewAt url.toList

/-- `re.search(r'doi\.org/(10\.\d+/[^\s]+)', url)` succeeds. -/
def matchesDoi (url : String) : Bool := searchAny doiAt url.toList

/-- The four source tags produced by `parse_url`. -/
inductive Source where
  | arxiv
  | semantic_scholar
  | openreview
  | doi
  deriving DecidableEq, Repr

/-- `parse_url(url)` (lines 372-398): try the four regexes in the fixed order
arXiv, Semantic Scholar, OpenReview, DOI; the first that matches decides the
source tag; no match yields `(None, None)`.  The embedding keeps the source
tag; the captured paper id plays no role in the claims about classification. -/
def parse_url (url : String) : Option Source :=
  if matchesArxiv url then some .arxiv
  else if matchesSemanticScholar url then some .semantic_scholar
  else if matchesOpenReview url then some .openreview
  else if matchesDoi url then some .doi
  else none

/-- The citation-enrichment chain of the arXiv resolution path of `main`
(lines 584-607): runs only when the record's citations equal "N/A"; with
`--use-google-scholar-citations` the Google Scholar result `gsCit` is tried
first and the Semantic Scholar result `ssCit` second, otherwise the reverse;
the first result differing from "N/A" is written into the record. -/
def enrichArxiv (useGS : Bool) (gsCit ssCit : Citations) (info : PaperInfo) : PaperInfo :=
  if info.citations = .na then
    if useGS then
      if gsCit ≠ .na then { info with citations := gsCit }
      else if ssCit ≠ .na then { info with citations := ssCit }
      else info
    else
      if ssCit ≠ .na then { info with citations := ssCit }
      else if gsCit ≠ .na then { info with citations := gsCit }
      else info
  else info

/-- The citation step of the semantic-scholar resolution path of `main`
(lines 608-614): when `--use-google-scholar-citations` is set and the record
has a truthy title, a Google Scholar result differing from "N/A" overwrites
the record's citations, whatever they were. -/
def enrichSemanticScholar (useGS : Bool) (gsCit : Citations) (info : PaperInfo) : PaperInfo :=
  if useGS && info.title ≠ "" then
    if gsCit ≠ .na then { info with citations := gsCit } else info
  else info

/-- The citation step of the OpenReview resolution path of `main`
(lines 615-622): with a truthy title, when `--use-google-scholar-citations`
is set or the citations equal "N/A", a Google Scholar result differing from
"N/A" overwrites the record's citations. -/
def enrichOpenReview (useGS : Bool) (gsCit : Citations) (info : PaperInfo) : PaperInfo :=
  if info.title ≠ "" then
    if useGS || info.citations = .na then
      if gsCit ≠ .na then { info with citations := gsCit } else info
    else info
  else info

/-- The citation step of the DOI resolution path of `main` (lines 623-630):
identical in shape to the semantic-scholar path. -/
def enrichDoi (useGS : Bool) (gsCit : Citations) (info : PaperInfo) : PaperInfo :=
  if useGS && info.title ≠ "" then
    if gsCit ≠ .na then { info with citations := gsCit } else info
  else info

/-- Modelled from the spec: the Record Normalizer of spec section 4.4 has no
standalone implementation in `src/fetch_paper_info.py` (every adapter fills
its sentinels inline while building the record dict), so the partial-record
shape of spec section 3 is modelled here: any of title, year, venue,
citations may be absent; the author list is always present (an empty list is
the formatter's own sentinel case). -/
structure PartialRecord where
  title : Option String
  authors : List String
  year : Option String
  venue : Option String
  citations : Option Citations
  deriving DecidableEq, Repr

/-- Modelled from the spec: `normalize(record)` of spec section 4.4 is not a
standalone function in `src/fetch_paper_info.py` (the name `normalize` is
taken by Mathlib, hence `normalizeRecord` here); following the spec's words
it fills every absent field with its documented sentinel ("Unknown" for
title and venue as the adapters use, "N/A" for year and citations) and
performs no other validation. -/
def normalizeRecord (r : PartialRecord) : PartialRecord :=
  { title := some (r.title.getD "Unknown")
  , authors := r.authors
  , year := some (r.year.getD "N/A")
  , venue := some (r.venue.getD "Unknown")
  , citations := some (r.citations.getD .na) }

/-- A record is canonical when all of its optional fields are present
(spec section 3: a CanonicalRecord is never partially populated). -/
def isCanonical (r : PartialRecord) : Prop :=
  r.title.isSome = true ∧ r.year.isSome = true ∧ r.venue.isSome = true ∧
    r.citations.isSome = true

instance (r : PartialRecord) : Decidable (isCanonical r) := by
  unfold isCanonical; infer_instance

/-- A sample record used to witness the enrichment short-circuit claim. -/
def c6rec : PaperInfo :=
  { title := "Attention Is All You Need", authors := ["Ashish Vaswani"]
  , year := "2017", venue := "arXiv", citations := .na }

/-- A record with a concrete citation count already present, as returned by
the semantic-scholar adapter. -/
def c7rec : PaperInfo :=
  { title := "Attention Is All You Need", authors := ["Ashish Vaswani"]
  , year := "2017", venue := "NeurIPS", citations := .num 5 }

/-- A record with unknown citations and unknown venue, as an adapter returns
when only partial data is available. -/
def c8rec : PaperInfo :=
  { title := "Attention Is All You Need", authors := ["Ashish Vaswani"]
  , year := "N/A", venue := "Unknown", citations := .na }

/-- A partial record with every optional field absent. -/
def emptyPartial : PartialRecord :=
  { title := none, authors := [], year := none, venue := none, citations := none }

/-- A fully-populated (canonical) partial record. -/
def canonicalSample : PartialRecord :=
  { title := some "Attention Is All You Need", authors := ["Ashish Vaswani"]
  , year := some "2017", venue := some "NeurIPS", citations := some (.num 98234) }

example : format_authors ["Alec Radford", "Jong Wook Kim"] 3 = "Radford, A. and Kim, J. W" := by
  decide

example : format_authors ["Ashish Vaswani", "Noam Shazeer", "Niki Parmar", "Jakob Uszkoreit",
    "Llion Jones", "Aidan N. Gomez", "Lukasz Kaiser", "Illia Polosukhin"] 3
    = "Vaswani, A. et al" := by decide

example : parse_url "https://arxiv.org/abs/1706.03762" = some .arxiv := by decide

example : parse_url "https://www.semanticscholar.org/paper/Attention/204e3073" =
    some .semantic_scholar := by decide

example : parse_url "https://openreview.net/forum?id=rJXMpikCZ" = some .openreview := by decide

example : parse_url "https://doi.org/10.1145/3292500" = some .doi := by decide

example : parse_url "https://example.com/foo" = none := by decide

/-- Any successfully formatted record begins with the bold title marker, so
it is never the formatter's error line. -/
lemma format_output_some_ne_error (info : PaperInfo) (m : Int) :
    format_output (some info) m ≠ "Error: Could not fetch paper information" := by
  intro hc
  have hd := congrArg (fun s => s.data.head?) hc
  simp only [format_output, String.data_append] at hd
  simp at hd

/-- C1 counterexample: `format_authors(["Alec Radford", "Jong Wook Kim"], 3)`
is not the string "Radford, A. and Kim, J. W." with a trailing period — the
function strips trailing periods (`rstrip('.')`, line 478). -/
theorem format_authors_radford_kim_counterexample :
    format_authors ["Alec Radford", "Jong Wook Kim"] 3 ≠ "Radford, A. and Kim, J. W." := by
  decide

/-- C1 (amended): for the author list ["Alec Radford", "Jong Wook Kim"] with
max_authors = 3, `format_authors` returns exactly "Radford, A. and Kim, J. W"
— every initial except the final one is followed by a period; the trailing
period is stripped by `format_authors` and re-added by `format_output`. -/
theorem format_authors_radford_kim :
    format_authors ["Alec Radford", "Jong Wook Kim"] 3 = "Radford, A. and Kim, J. W" := by
  decide

/-- C2: formatting the canonical record of test paper "1" with max_authors = 3
yields exactly the documented end-to-end output line. -/
theorem format_output_test_paper_one :
    format_output (get_test_paper_info "1") 3
      = "**Attention Is All You Need** Vaswani, A. et al. 2017. NeurIPS. Citations: 98234" := by
  decide

/-- C3: whenever the (nonempty) author list is longer than `max_authors`,
`format_authors` returns exactly the first author's formatted display name
followed by " et al", and the result's last character is 'l' — no trailing
period. -/
theorem format_authors_et_al (authors : List String) (max_authors : Int)
    (h : authors ≠ []) (hlen : (authors.length : Int) > max_authors) :
    format_authors authors max_authors = formatAuthorName (authors.headD "") ++ " et al" ∧
    (format_authors authors max_authors).data.getLast? = some 'l' := by
  have h1 : ¬ ((authors.length : Int) ≤ max_authors) := not_le.mpr hlen
  have he : format_authors authors max_authors
      = formatAuthorName (authors.headD "") ++ " et al" := by
    simp [format_authors, h, h1]
  refine ⟨he, ?_⟩
  rw [he, String.data_append, List.getLast?_append]
  rfl

/-- C3 witness: the 8-author list of test paper "1" with max_authors = 3
formats to exactly "Vaswani, A. et al". -/
theorem format_authors_et_al_witness :
    format_authors ["Ashish Vaswani", "Noam Shazeer", "Niki Parmar", "Jakob Uszkoreit",
      "Llion Jones", "Aidan N. Gomez", "Lukasz Kaiser", "Illia Polosukhin"] 3
      = "Vaswani, A. et al" := by
  have h := format_authors_et_al
    ["Ashish Vaswani", "Noam Shazeer", "Niki Parmar", "Jakob Uszkoreit",
      "Llion Jones", "Aidan N. Gomez", "Lukasz Kaiser", "Illia Polosukhin"] 3
    (by decide) (by decide)
  exact h.1.trans (by decide)

/-- C4: the empty author list formats to the literal "Unknown Authors" for
every value of max_authors. -/
theorem format_authors_empty (max_authors : Int) :
    format_authors [] max_authors = "Unknown Authors" := rfl

/-- C5: a URL matching exactly one of the four source patterns is classified
with that source's tag and never another's; the four matchers are tried in
the fixed order arXiv, Semantic Scholar, OpenReview, DOI, and the first match
wins (final conjunct: an arXiv match decides the tag regardless of the
others). -/
theorem parse_url_unique_pattern (url : String) :
    (matchesArxiv url = true ∧ matchesSemanticScholar url = false ∧
      matchesOpenReview url = false ∧ matchesDoi url = false →
      parse_url url = some Source.arxiv) ∧
    (matchesArxiv url = false ∧ matchesSemanticScholar url = true ∧
      matchesOpenReview url = false ∧ matchesDoi url = false →
      parse_url url = some Source.semantic_scholar) ∧
    (matchesArxiv url = false ∧ matchesSemanticScholar url = false ∧
      matchesOpenReview url = true ∧ matchesDoi url = false →
      parse_url url = some Source.openreview) ∧
    (matchesArxiv url = false ∧ matchesSemanticScholar url = false ∧
      matchesOpenReview url = false ∧ matchesDoi url = true →
      parse_url url = some Source.doi) ∧
    (matchesArxiv url = true → parse_url url = some Source.arxiv) := by
  refine ⟨?_, ?_, ?_, ?_, ?_⟩
  · rintro ⟨h1, h2, h3, h4⟩
    simp [parse_url, h1]
  · rintro ⟨h1, h2, h3, h4⟩
    simp [parse_url, h1, h2]
  · rintro ⟨h1, h2, h3, h4⟩
    simp [parse_url, h1, h2, h3]
  · rintro ⟨h1, h2, h3, h4⟩
    simp [parse_url, h1, h2, h3, h4]
  · intro h1
    simp [parse_url, h1]

/-- C5 witness: the canonical arXiv abstract URL matches only the arXiv
pattern and is classified as arXiv. -/
theorem parse_url_unique_pattern_witness :
    parse_url "https://arxiv.org/abs/1706.03762" = some Source.arxiv :=
  (parse_url_unique_pattern "https://arxiv.org/abs/1706.03762").1 (by decide)

/-- C6: for a record whose citations are "N/A", the arXiv-path enrichment
chain takes the first source of the preferred order when it returns the
concrete count 42, and the result does not depend on the second source's
behaviour — in both supported orders (Google Scholar first when the flag is
set, Semantic Scholar first otherwise). -/
theorem enrich_short_circuit (info : PaperInfo) (h : info.citations = .na) :
    (∀ ssCit, (enrichArxiv true (.num 42) ssCit info).citations = Citations.num 42) ∧
    (∀ ssCit ssCit', enrichArxiv true (.num 42) ssCit info
        = enrichArxiv true (.num 42) ssCit' info) ∧
    (∀ gsCit, (enrichArxiv false gsCit (.num 42) info).citations = Citations.num 42) ∧
    (∀ gsCit gsCit', enrichArxiv false gsCit (.num 42) info
        = enrichArxiv false gsCit' (.num 42) info) := by
  refine ⟨fun s => ?_, fun s s' => ?_, fun g => ?_, fun g g' => ?_⟩ <;>
    simp [enrichArxiv, h]

/-- C6 witness: on a concrete "N/A" record, the first source's 42 is taken
and the second source's answer is irrelevant. -/
theorem enrich_short_circuit_witness :
    (enrichArxiv true (.num 42) .na c6rec).citations = Citations.num 42 ∧
    enrichArxiv true (.num 42) (.num 5) c6rec = enrichArxiv true (.num 42) (.num 9) c6rec :=
  ⟨(enrich_short_circuit c6rec rfl).1 _, (enrich_short_circuit c6rec rfl).2.1 _ _⟩

/-- C7 counterexample: on the semantic-scholar resolution path with
--use-google-scholar-citations set, the concrete count 5 already present in
the adapter's record is replaced by the Google Scholar value 7
(lines 608-614 of `fetch_paper_info.py`). -/
theorem enrich_replaces_concrete_count :
    c7rec.citations = Citations.num 5 ∧
    (enrichSemanticScholar true (.num 7) c7rec).citations = Citations.num 7 := by
  decide

/-- C7 (amended): a concrete citation count already present in the adapter's
record is never replaced on the arXiv path under any flag configuration, and
never replaced on the semantic-scholar, OpenReview, or DOI paths when the
--use-google-scholar-citations flag is unset; with that flag set, those three
paths may overwrite a concrete count with a Google Scholar value. -/
theorem enrich_preserves_concrete_count (useGS : Bool) (gsCit ssCit : Citations)
    (info : PaperInfo) (h : info.citations ≠ .na) :
    enrichArxiv useGS gsCit ssCit info = info ∧
    enrichSemanticScholar false gsCit info = info ∧
    enrichOpenReview false gsCit info = info ∧
    enrichDoi false gsCit info = info := by
  refine ⟨?_, ?_, ?_, ?_⟩
  · simp [enrichArxiv, h]
  · simp [enrichSemanticScholar]
  · simp [enrichOpenReview, h]
  · simp [enrichDoi]

/-- C7 witness: a record holding the concrete count 5 passes through every
chain unchanged (flag unset on the three Google Scholar update paths; both
flag values are covered on the arXiv path by the theorem). -/
theorem enrich_preserves_concrete_count_witness :
    enrichArxiv true (.num 7) (.num 8) c7rec = c7rec ∧
    enrichSemanticScholar false (.num 7) c7rec = c7rec ∧
    enrichOpenReview false (.num 7) c7rec = c7rec ∧
    enrichDoi false (.num 7) c7rec = c7rec :=
  enrich_preserves_concrete_count true (.num 7) (.num 8) c7rec (by decide)

/-- C8: when every citation source of the preferred order fails or answers
"N/A", the enriched record's citations remain "N/A" and the record is still
formatted successfully — the formatter never produces the error line for a
present record, however unknown its fields. -/
theorem enrich_exhaustion (useGS : Bool) (info : PaperInfo) (m : Int)
    (h : info.citations = .na) :
    (enrichArxiv useGS .na .na info).citations = Citations.na ∧
    format_output (some (enrichArxiv useGS .na .na info)) m
      ≠ "Error: Could not fetch paper information" := by
  have hfix : enrichArxiv useGS Citations.na Citations.na info = info := by
    cases useGS <;> simp [enrichArxiv, h]
  rw [hfix]
  exact ⟨h, format_output_some_ne_error info m⟩

/-- C8 witness: a concrete record with unknown citations and unknown venue
keeps "N/A" after exhaustion and still renders as a non-error line. -/
theorem enrich_exhaustion_witness :
    (enrichArxiv false .na .na c8rec).citations = Citations.na ∧
    format_output (some (enrichArxiv false .na .na c8rec)) 3
      ≠ "Error: Could not fetch paper information" :=
  enrich_exhaustion false c8rec 3 rfl

/-- C9: the record normalizer (modelled from the spec; no standalone
implementation exists in the source) fills every absent field with its
documented sentinel, and is the identity on every already-canonical record. -/
theorem normalize_fills_and_idempotent (r : PartialRecord) :
    ((r.title = none → (normalizeRecord r).title = some "Unknown") ∧
     (r.year = none → (normalizeRecord r).year = some "N/A") ∧
     (r.venue = none → (normalizeRecord r).venue = some "Unknown") ∧
     (r.citations = none → (normalizeRecord r).citations = some Citations.na)) ∧
    (isCanonical r → normalizeRecord r = r) := by
  constructor
  · refine ⟨fun h => ?_, fun h => ?_, fun h => ?_, fun h => ?_⟩ <;>
      simp [normalizeRecord, h]
  · intro hc
    obtain ⟨ht, hy, hv, hcit⟩ := hc
    obtain ⟨t, ht⟩ := Option.isSome_iff_exists.mp ht
    obtain ⟨y, hy⟩ := Option.isSome_iff_exists.mp hy
    obtain ⟨v, hv⟩ := Option.isSome_iff_exists.mp hv
    obtain ⟨c, hcit⟩ := Option.isSome_iff_exists.mp hcit
    cases r
    simp_all [normalizeRecord]

/-- C9 witness: the all-absent record is filled with the four sentinels, and
a concrete canonical record is returned unchanged. -/
theorem normalize_fills_and_idempotent_witness :
    ((normalizeRecord emptyPartial).title = some "Unknown" ∧
     (normalizeRecord emptyPartial).year = some "N/A" ∧
     (normalizeRecord emptyPartial).venue = some "Unknown" ∧
     (normalizeRecord emptyPartial).citations = some Citations.na) ∧
    normalizeRecord canonicalSample = canonicalSample :=
  ⟨⟨((normalize_fills_and_idempotent emptyPartial).1).1 rfl,
    ((normalize_fills_and_idempotent emptyPartial).1).2.1 rfl,
    ((normalize_fills_and_idempotent emptyPartial).1).2.2.1 rfl,
    ((normalize_fills_and_idempotent emptyPartial).1).2.2.2 rfl⟩,
   (normalize_fills_and_idempotent canonicalSample).2 (by decide)⟩

/-- C10: an absent record (the adapter returned nothing) always formats to
the literal error line, for every max_authors value. -/
theorem format_output_none (max_authors : Int) :
    format_output none max_authors = "Error: Could not fetch paper information" := rfl
